import Mathlib

/-!
Verification of the driver `main.cpp` (`src/prog2/main.cpp`).

This file shallowly embeds the driver program `main.cpp` of the MPI Jacobi
solver.  The driver parses command-line arguments on rank 0 (random input
generation with `-n <n>`, or binary file input `<input_A> <input_b>
<output_x>`), broadcasts the problem size, checks that the number of MPI
processes is a perfect square, builds a 2D Cartesian grid, and invokes
either the sequential solver `jacobi` (when `p == 1`) or the parallel
solver `mpi_jacobi` (when `p > 1`).

The embedding is per process: `mainProc rank p argv env sol` computes the
run of the process with the given rank, as a trace of observable steps plus
an exit mode and the final contents of the driver's vector `x`.  Inputs
that in the real program arrive from outside the process (file contents,
random generation, the solver implementations, which live in headers not
part of this snapshot) are parameters (`Env`, `Solver`).

Doubles are modelled as rationals: no claim below depends on rounding,
only on control flow, buffer sizes and data placement.
-/

namespace JacobiDriver

/-- Matrix/vector entries. `double` in the source; no claim depends on
floating-point rounding, so we use `ℚ`. -/
abbrev Q := Rat

/-- Description of the communicator produced by `MPI_Cart_create`
(main.cpp lines 169-173): number of dimensions, the `dims` array, the
`periods` array, and the size of the communicator it was created over. -/
structure GridComm where
  ndims : Nat
  dims : List Nat
  periods : List Bool
  size : Nat
deriving DecidableEq, Repr

/-- Modelled from the spec: the Jacobi iterator's terminal states
(`jacobi.h` / `mpi_jacobi.h` are not in the snapshot).  The spec's state
machine ends in `CONVERGED` or `MAX_ITERS_REACHED`. -/
inductive SolverStatus
  | converged
  | maxItersReached
deriving DecidableEq, Repr

/-- Observable steps of a driver process, in program order. -/
inductive Step
  /-- Printing the usage message, `print_usage()` (lines 56-65). -/
  | printUsage
  /-- Random input generation `diag_dom_rand(n, difficulty)` / `randn(n)`
  (lines 118-119). -/
  | genInput (n : Nat)
  /-- The broadcast `MPI_Bcast(&n, 1, MPI_INT, 0, MPI_COMM_WORLD)` (line
  160); the payload is the value of `n` held after the broadcast. -/
  | bcastN (n : Nat)
  /-- The call `MPI_Cart_create` (line 173). -/
  | cartCreate (comm : GridComm)
  /-- The allocation `x = std::vector<double>(n)` on rank 0 (lines 176-177). -/
  | allocX (len : Nat)
  /-- Forming the buffer arguments `&A[0], &b[0], &x[0]` at a solver call
  site.  `&v[0]` invokes `operator[](0)`; we record `v.get? 0` for each of
  the three vectors: `none` means element 0 of an empty container was
  accessed (undefined behaviour in the source). -/
  | formArgs (a0 b0 x0 : Option Q)
  /-- The call `mpi_jacobi(n, &A[0], &b[0], &x[0], grid_comm)` (line 183),
  with the argument values at the call. -/
  | callMpiJacobi (n : Nat) (A b x : List Q) (comm : GridComm)
  /-- The `[WARNING]: Running the sequential solver` message (line 187). -/
  | warnSeq
  /-- The call `jacobi(n, &A[0], &b[0], &x[0])` (line 196), with the
  argument values at the call. -/
  | callJacobi (n : Nat) (A b x : List Q)
  /-- The timing output on `cerr` (lines 199-211). -/
  | printTime
  /-- The call `write_binary_file(outfile_name.c_str(), x)` (line 216). -/
  | writeFile (name : String) (x : List Q)
deriving DecidableEq, Repr

/-- How a process's `main` ends. -/
inductive MainExit
  /-- Reaches `return 0`. -/
  | normal
  /-- Termination via `print_usage(); exit(EXIT_FAILURE)`. -/
  | usageExit
  /-- An uncaught `throw std::runtime_error(msg)`; `main` has no handler,
  so the process terminates. -/
  | runtimeError (msg : String)
  /-- A non-root process stuck in `MPI_Bcast` because rank 0 exited before
  reaching it. -/
  | blocked
deriving DecidableEq, Repr

/-- The run of one driver process: its trace of observable steps, its exit
mode, and the final contents of its local vector `x` (line 81). -/
structure Run where
  trace : List Step
  exit : MainExit
  x : List Q
deriving DecidableEq, Repr

/-- External inputs of the driver that are not in this snapshot
(`io.h`, `utils.h`): the contents read by `read_binary_file` from
`argv[1]` and `argv[2]`, and, modelled from the spec, the random input
generation (`diag_dom_rand`, `randn`): pure glue producing an `n*n` matrix
and a length-`n` vector; the generated values (and the difficulty
parameter, which only scales them) are opaque here. -/
structure Env where
  fileA : List Q
  fileB : List Q
  genA : Nat → List Q
  genB : Nat → List Q

/-- Modelled from the spec: the two solver entry points declared in
`jacobi.h` and `mpi_jacobi.h` (not in the snapshot).  `solve_parallel`
returns the current `x` plus a status flag (`CONVERGED` or
`MAX_ITERS_REACHED`); `mpi` maps the call-site arguments
`(n, A, b, x, rank, p)` to the resulting contents of the `x` buffer and
that status.  `seq` is the sequential solver `jacobi(n, A, b, x)`. -/
structure Solver where
  mpi : Nat → List Q → List Q → List Q → Nat → Nat → List Q × SolverStatus
  seq : Nat → List Q → List Q → List Q → List Q

/-- Accumulate the value of the leading decimal digits, as `atoi` does. -/
def digitsVal : List Char → Nat → Nat
  | [], acc => acc
  | c :: cs, acc => if c.isDigit then digitsVal cs (10 * acc + (c.toNat - 48)) else acc

/-- The whitespace characters `atoi` skips. -/
def isSpaceChar (c : Char) : Bool :=
  c = ' ' || c = '\t' || c = '\n' || c = '\r' || c = '\x0b' || c = '\x0c'

/-- C `atoi`: skip leading whitespace, optional sign, then leading decimal
digits; a string with no leading digits parses to `0`. -/
def atoi (s : String) : Int :=
  match s.toList.dropWhile isSpaceChar with
  | '-' :: cs => - (digitsVal cs 0 : Int)
  | '+' :: cs => (digitsVal cs 0 : Int)
  | cs => (digitsVal cs 0 : Int)

/-- Early termination during rank 0's argument handling (lines 87-145). -/
inductive EarlyExit
  | usageExit
  | runtimeError (msg : String)
deriving DecidableEq, Repr

/-- The message of the dimension-mismatch error (line 142). -/
def dimMsg : String := "The input dimensions are not matching"

/-- The message of the perfect-square error (line 166). -/
def squareMsg : String := "The number of MPI processes must be a perfect square"

/-- The empty string, used for the output-file name on processes that
never set one. -/
def noOutfile : String := ""

/-- Rank 0's local state after successful argument handling. -/
structure Setup where
  n : Nat
  A : List Q
  b : List Q
  writeOutput : Bool
  outfileName : String
  events : List Step
deriving DecidableEq, Repr

/-- Rank 0's argument handling (lines 87-145).  `argv` includes the
program name, so `argc = argv.length`.  In `-n` mode `n = atoi(argv[2])`
must be positive, and when `argc == 5` the third argument must be `-d`
(the difficulty value only scales the generated input and is dropped, see
`Env`).  In file mode `argc` must be 4, `n` is the number of elements read
for `b`, and the element count of `A` must equal `n*n`. -/
def parseArgs (argv : List String) (env : Env) : Except EarlyExit Setup :=
  if argv.length < 3 then
    .error .usageExit
  else if argv.getD 1 "" = "-n" then
    if ¬ (atoi (argv.getD 2 "") > 0) then
      .error .usageExit
    else if argv.length = 5 ∧ argv.getD 3 "" ≠ "-d" then
      .error .usageExit
    else
      .ok { n := (atoi (argv.getD 2 "")).toNat,
            A := env.genA (atoi (argv.getD 2 "")).toNat,
            b := env.genB (atoi (argv.getD 2 "")).toNat,
            writeOutput := false, outfileName := "",
            events := [Step.genInput (atoi (argv.getD 2 "")).toNat] }
  else if argv.length ≠ 4 then
    .error .usageExit
  else if env.fileA.length ≠ env.fileB.length * env.fileB.length then
    .error (.runtimeError dimMsg)
  else
    .ok { n := env.fileB.length, A := env.fileA, b := env.fileB,
          writeOutput := true, outfileName := argv.getD 3 "", events := [] }

/-- Climb towards the floor square root of `p`: starting from `0`, take
`k` steps, incrementing whenever the next square still fits below `p`. -/
def isqrtFrom (p : Nat) : Nat → Nat
  | 0 => 0
  | k + 1 =>
      if (isqrtFrom p k + 1) * (isqrtFrom p k + 1) ≤ p then isqrtFrom p k + 1
      else isqrtFrom p k

/-- Model of `(int)sqrt((double)p)` at line 163.  For every nonnegative `int p`,
the correctly-rounded double `sqrt` truncated to `int` is the floor
square root of `p` (the rounding error of `sqrt(p)` is far below the
distance from `√p` to the next integer for `p < 2^31`).  We use a
structurally recursive floor square root so that concrete runs evaluate;
`isqrt_eq_sqrt` identifies it with `Nat.sqrt`. -/
def isqrt (p : Nat) : Nat := isqrtFrom p p

theorem isqrtFrom_eq_min (p k : Nat) : isqrtFrom p k = min (Nat.sqrt p) k := by
  induction k with
  | zero => simp [isqrtFrom]
  | succ k ih =>
      rw [isqrtFrom, ih]
      rcases le_or_lt (Nat.sqrt p) k with h | h
      · have hc : ¬ ((min (Nat.sqrt p) k + 1) * (min (Nat.sqrt p) k + 1) ≤ p) := by
          rw [min_eq_left h]
          intro hc
          have := Nat.le_sqrt.mpr hc
          omega
        rw [if_neg hc, min_eq_left h, min_eq_left (by omega)]
      · have hc : (min (Nat.sqrt p) k + 1) * (min (Nat.sqrt p) k + 1) ≤ p := by
          rw [min_eq_right (by omega)]
          exact Nat.le_sqrt.mp h
        rw [if_pos hc, min_eq_right (by omega), min_eq_right (by omega)]

/-- The executable `isqrt` is the floor square root. -/
theorem isqrt_eq_sqrt (p : Nat) : isqrt p = Nat.sqrt p := by
  rw [isqrt, isqrtFrom_eq_min, min_eq_left (Nat.sqrt_le_self p)]

/-- Lines 163-164: `int q = (int)sqrt(p); if (p != q*q) ...`: the check
is `p ≠ ⌊√p⌋ * ⌊√p⌋`, a function of `p` alone. -/
def perfectSquareViolated (p : Nat) : Bool :=
  p ≠ isqrt p * isqrt p

/-- The parallel branch (lines 158-184): broadcast of `n`, perfect-square
check, Cartesian grid creation, allocation of `x` on rank 0, and the
`mpi_jacobi` call.  `n` is the value held after the broadcast (the root's
parsed `n`); `A`, `b` are this process's buffers (empty off the root);
`wout`, `fname`, `ev` are rank 0's output flag, output file name and
parse-phase events (`false`, `""`, `[]` off the root). -/
def parallelRun (rank p n : Nat) (A b : List Q) (wout : Bool) (fname : String)
    (ev : List Step) (sol : Solver) : Run :=
  if perfectSquareViolated p then
    { trace := ev ++ [Step.bcastN n], exit := .runtimeError squareMsg, x := [] }
  else
    let q := isqrt p
    let gc : GridComm := ⟨2, [q, q], [false, false], p⟩
    let x0 := if rank = 0 then List.replicate n (0 : Q) else []
    let x1 := (sol.mpi n A b x0 rank p).1
    { trace := ev ++ [Step.bcastN n, Step.cartCreate gc]
        ++ (if rank = 0 then [Step.allocX n] else [])
        ++ [Step.formArgs (A.get? 0) (b.get? 0) (x0.get? 0),
            Step.callMpiJacobi n A b x0 gc]
        ++ (if rank = 0 then
              Step.printTime :: (if wout then [Step.writeFile fname x1] else [])
            else []),
      exit := .normal, x := x1 }

/-- The sequential branch (lines 185-197) followed by the rank-0 output
block (lines 199-218): warning, allocation of `x`, the `jacobi` call, then
timing output and the optional file write. -/
def seqRun (rank p n : Nat) (A b : List Q) (wout : Bool) (fname : String)
    (ev : List Step) (sol : Solver) : Run :=
  let x0 := List.replicate n (0 : Q)
  let x1 := sol.seq n A b x0
  { trace := ev ++ [Step.warnSeq,
        Step.formArgs (A.get? 0) (b.get? 0) (x0.get? 0),
        Step.callJacobi n A b x0]
      ++ (if rank = 0 then
            Step.printTime :: (if wout then [Step.writeFile fname x1] else [])
          else []),
    exit := .normal, x := x1 }

/-- The run of the driver process with the given rank in a world of `p`
processes.  Only rank 0 executes the argument handling (lines 87-145); a
non-root process reaches line 158 directly with empty `A`, `b`, `x`.  The
value a non-root process receives from the broadcast of `n` is whatever
rank 0 parsed, so `parseArgs` also appears in the non-root case as the
broadcast source; if rank 0 exited during parsing, a non-root process
blocks in `MPI_Bcast` forever.  (A non-root process with `p ≤ 1` cannot
occur, since MPI ranks satisfy `rank < p`; the model returns `blocked`
with an uninitialized `n` read modelled as `0` there.) -/
def mainProc (rank p : Nat) (argv : List String) (env : Env) (sol : Solver) : Run :=
  if rank = 0 then
    match parseArgs argv env with
    | .error .usageExit => { trace := [Step.printUsage], exit := .usageExit, x := [] }
    | .error (.runtimeError m) => { trace := [], exit := .runtimeError m, x := [] }
    | .ok st =>
        if p > 1 then
          parallelRun 0 p st.n st.A st.b st.writeOutput st.outfileName st.events sol
        else
          seqRun 0 p st.n st.A st.b st.writeOutput st.outfileName st.events sol
  else
    match parseArgs argv env with
    | .error _ => { trace := [], exit := .blocked, x := [] }
    | .ok st =>
        if p > 1 then
          parallelRun rank p st.n [] [] false noOutfile [] sol
        else
          { trace := [], exit := .blocked, x := [] }

/-- The value of the local variable `n` (line 86) just before the
broadcast at line 160: it is assigned only inside the `rank == 0` branch
(lines 95-143), so it is defined on the root alone and uninitialized
(`none`) on every other process. -/
def nBeforeBcast (rank : Nat) (argv : List String) (env : Env) : Option Nat :=
  if rank = 0 then
    match parseArgs argv env with
    | .ok st => some st.n
    | .error _ => none
  else
    none

/-! ## Helper lemmas -/

/-- A successful parse records either no event (file mode) or exactly the
generation of the input (`-n` mode). -/
theorem parse_events (argv : List String) (env : Env) (st : Setup)
    (hp : parseArgs argv env = .ok st) :
    st.events = [] ∨ st.events = [Step.genInput st.n] := by
  unfold parseArgs at hp
  repeat' split at hp
  all_goals try exact Except.noConfusion hp
  all_goals injection hp with h
  all_goals subst h
  all_goals simp

/-- Unfolding of `mainProc` when rank 0's parse succeeds. -/
theorem mainProc_ok (rank p : Nat) (argv : List String) (env : Env) (sol : Solver)
    (st : Setup) (hp : parseArgs argv env = .ok st) :
    mainProc rank p argv env sol =
      if rank = 0 then
        if p > 1 then
          parallelRun 0 p st.n st.A st.b st.writeOutput st.outfileName st.events sol
        else
          seqRun 0 p st.n st.A st.b st.writeOutput st.outfileName st.events sol
      else
        if p > 1 then
          parallelRun rank p st.n [] [] false noOutfile [] sol
        else
          { trace := [], exit := .blocked, x := [] } := by
  unfold mainProc
  rw [hp]

/-- Unfolding of `parallelRun` when the perfect-square check fails. -/
theorem parallelRun_viol (rank p n : Nat) (A b : List Q) (wout : Bool)
    (fname : String) (ev : List Step) (sol : Solver)
    (h : perfectSquareViolated p = true) :
    parallelRun rank p n A b wout fname ev sol =
      { trace := ev ++ [Step.bcastN n], exit := .runtimeError squareMsg, x := [] } := by
  unfold parallelRun
  rw [h]
  simp

/-- Unfolding of `parallelRun` when the perfect-square check passes. -/
theorem parallelRun_pass (rank p n : Nat) (A b : List Q) (wout : Bool)
    (fname : String) (ev : List Step) (sol : Solver)
    (h : perfectSquareViolated p = false) :
    parallelRun rank p n A b wout fname ev sol =
      { trace := ev ++ [Step.bcastN n,
            Step.cartCreate ⟨2, [isqrt p, isqrt p], [false, false], p⟩]
          ++ (if rank = 0 then [Step.allocX n] else [])
          ++ [Step.formArgs (A.get? 0) (b.get? 0)
                ((if rank = 0 then List.replicate n (0 : Q) else []).get? 0),
              Step.callMpiJacobi n A b
                (if rank = 0 then List.replicate n (0 : Q) else [])
                ⟨2, [isqrt p, isqrt p], [false, false], p⟩]
          ++ (if rank = 0 then
                Step.printTime ::
                  (if wout then
                    [Step.writeFile fname
                      (sol.mpi n A b (if rank = 0 then List.replicate n (0 : Q) else [])
                        rank p).1]
                  else [])
              else []),
        exit := .normal,
        x := (sol.mpi n A b (if rank = 0 then List.replicate n (0 : Q) else [])
                rank p).1 } := by
  unfold parallelRun
  rw [h]
  simp

/-! ## Concrete instances for witnesses -/

/-- An environment for `-n`-mode runs: the generated matrix is `n*n` ones
and the generated vector is `n` ones. -/
def envGen : Env :=
  { fileA := [], fileB := [],
    genA := fun n => List.replicate (n * n) 1,
    genB := fun n => List.replicate n 1 }

/-- An environment whose files are dimension-mismatched: `b` has one
element but `A` is empty. -/
def envBad : Env :=
  { fileA := [], fileB := [1],
    genA := fun _ => [], genB := fun _ => [] }

/-- A solver that leaves the `x` buffer unchanged and reports
convergence. -/
def solConv : Solver :=
  { mpi := fun _ _ _ x _ _ => (x, .converged),
    seq := fun _ _ _ x => x }

/-- A solver that leaves the `x` buffer unchanged and reports that the
iteration cap was reached. -/
def solMax : Solver :=
  { mpi := fun _ _ _ x _ _ => (x, .maxItersReached),
    seq := fun _ _ _ x => x }

/-- The setup produced by rank 0 for the arguments `jacobi -n 2` in the
environment `envGen`. -/
def stGen2 : Setup :=
  { n := 2, A := List.replicate 4 1, b := List.replicate 2 1,
    writeOutput := false, outfileName := "", events := [Step.genInput 2] }

/-! ## Claims -/

/-- C1: for every run with `p > 1` and `p` not a perfect square (and a
well-formed command line, i.e. rank 0's argument handling succeeds), every
process ends with the fatal runtime error `The number of MPI processes
must be a perfect square`, and neither `mpi_jacobi` nor the sequential
`jacobi` is ever invoked: no solve is attempted. -/
theorem c1_nonsquare_p_aborts_before_solve
    (rank p : Nat) (argv : List String) (env : Env) (sol : Solver) (st : Setup)
    (hp : parseArgs argv env = .ok st) (h1 : 1 < p)
    (hs : p ≠ isqrt p * isqrt p) :
    (mainProc rank p argv env sol).exit = .runtimeError squareMsg ∧
    (∀ n A b x gc, Step.callMpiJacobi n A b x gc ∉ (mainProc rank p argv env sol).trace) ∧
    (∀ n A b x, Step.callJacobi n A b x ∉ (mainProc rank p argv env sol).trace) := by
  have hviol : perfectSquareViolated p = true := by
    simpa [perfectSquareViolated] using hs
  rw [mainProc_ok rank p argv env sol st hp]
  rcases parse_events argv env st hp with hev | hev <;>
    by_cases hr : rank = 0 <;>
      simp [hr, h1, parallelRun_viol, hviol, hev]

/-- Witness for C1 at `p = 2`, arguments `jacobi -n 2`. -/
theorem c1_witness :
    (mainProc 0 2 ["jacobi", "-n", "2"] envGen solConv).exit = .runtimeError squareMsg ∧
    (∀ n A b x gc,
      Step.callMpiJacobi n A b x gc ∉ (mainProc 0 2 ["jacobi", "-n", "2"] envGen solConv).trace) ∧
    (∀ n A b x,
      Step.callJacobi n A b x ∉ (mainProc 0 2 ["jacobi", "-n", "2"] envGen solConv).trace) :=
  c1_nonsquare_p_aborts_before_solve 0 2 ["jacobi", "-n", "2"] envGen solConv stGen2
    rfl (by decide) (by decide)

/-- C4: with `p = 1` (hence rank 0) and a successful parse, the driver
takes the sequential path: it calls `jacobi(n, A, b, x)` with the parsed
data and the freshly allocated zero vector, performs no broadcast of `n`,
no Cartesian grid construction, no `mpi_jacobi` call, and exits normally
(in particular no perfect-square error can occur). -/
theorem c4_p1_sequential_fallback
    (argv : List String) (env : Env) (sol : Solver) (st : Setup)
    (hp : parseArgs argv env = .ok st) :
    Step.callJacobi st.n st.A st.b (List.replicate st.n 0) ∈ (mainProc 0 1 argv env sol).trace ∧
    (∀ n, Step.bcastN n ∉ (mainProc 0 1 argv env sol).trace) ∧
    (∀ gc, Step.cartCreate gc ∉ (mainProc 0 1 argv env sol).trace) ∧
    (∀ n A b x gc, Step.callMpiJacobi n A b x gc ∉ (mainProc 0 1 argv env sol).trace) ∧
    (mainProc 0 1 argv env sol).exit = .normal := by
  rw [mainProc_ok 0 1 argv env sol st hp]
  rcases parse_events argv env st hp with hev | hev <;>
    by_cases hw : st.writeOutput = true <;>
      simp [seqRun, hev, hw]

/-- Witness for C4 with arguments `jacobi -n 2`. -/
theorem c4_witness :
    Step.callJacobi stGen2.n stGen2.A stGen2.b (List.replicate stGen2.n 0) ∈
      (mainProc 0 1 ["jacobi", "-n", "2"] envGen solConv).trace ∧
    (∀ n, Step.bcastN n ∉ (mainProc 0 1 ["jacobi", "-n", "2"] envGen solConv).trace) ∧
    (∀ gc, Step.cartCreate gc ∉ (mainProc 0 1 ["jacobi", "-n", "2"] envGen solConv).trace) ∧
    (∀ n A b x gc,
      Step.callMpiJacobi n A b x gc ∉ (mainProc 0 1 ["jacobi", "-n", "2"] envGen solConv).trace) ∧
    (mainProc 0 1 ["jacobi", "-n", "2"] envGen solConv).exit = .normal :=
  c4_p1_sequential_fallback ["jacobi", "-n", "2"] envGen solConv stGen2 rfl

/-- C6: for every run with `p > 1` that passes the perfect-square check
(and a successful parse), the grid communicator is created as a
2-dimensional, non-periodic Cartesian grid of dimensions `q × q` with
`q = ⌊√p⌋` over all `p` processes, and every `mpi_jacobi` call receives
exactly that communicator. -/
theorem c6_cart_grid_square
    (rank p : Nat) (argv : List String) (env : Env) (sol : Solver) (st : Setup)
    (hp : parseArgs argv env = .ok st) (h1 : 1 < p)
    (hs : p = isqrt p * isqrt p) :
    Step.cartCreate ⟨2, [isqrt p, isqrt p], [false, false], p⟩ ∈
      (mainProc rank p argv env sol).trace ∧
    (∀ n A b x gc, Step.callMpiJacobi n A b x gc ∈ (mainProc rank p argv env sol).trace →
      gc = ⟨2, [isqrt p, isqrt p], [false, false], p⟩) := by
  have hpass : perfectSquareViolated p = false := by
    simpa [perfectSquareViolated] using hs
  rw [mainProc_ok rank p argv env sol st hp]
  rcases parse_events argv env st hp with hev | hev <;>
    by_cases hr : rank = 0 <;>
      by_cases hw : st.writeOutput = true <;>
        simp [hr, h1, parallelRun_pass, hpass, hev, hw]

/-- Witness for C6 at `p = 4`, rank 1, arguments `jacobi -n 2`. -/
theorem c6_witness :
    Step.cartCreate ⟨2, [isqrt 4, isqrt 4], [false, false], 4⟩ ∈
      (mainProc 1 4 ["jacobi", "-n", "2"] envGen solConv).trace ∧
    (∀ n A b x gc,
      Step.callMpiJacobi n A b x gc ∈ (mainProc 1 4 ["jacobi", "-n", "2"] envGen solConv).trace →
      gc = ⟨2, [isqrt 4, isqrt 4], [false, false], 4⟩) :=
  c6_cart_grid_square 1 4 ["jacobi", "-n", "2"] envGen solConv stGen2
    rfl (by decide) (by decide)

/-- C7: with a successful parse and `p > 1`, a process raises the
perfect-square configuration error exactly when `p ≠ ⌊√p⌋²` — a condition
on the shared communicator size alone, independent of the process's rank —
so on any run either every process raises the error or none does. -/
theorem c7_square_check_depends_only_on_p
    (rank p : Nat) (argv : List String) (env : Env) (sol : Solver) (st : Setup)
    (hp : parseArgs argv env = .ok st) (h1 : 1 < p) :
    ((mainProc rank p argv env sol).exit = .runtimeError squareMsg ↔
      perfectSquareViolated p = true) ∧
    (∀ rank', ((mainProc rank p argv env sol).exit = .runtimeError squareMsg ↔
      (mainProc rank' p argv env sol).exit = .runtimeError squareMsg)) := by
  have key : ∀ r : Nat, ((mainProc r p argv env sol).exit = .runtimeError squareMsg ↔
      perfectSquareViolated p = true) := by
    intro r
    rw [mainProc_ok r p argv env sol st hp]
    by_cases hv : perfectSquareViolated p = true
    · by_cases hr : r = 0 <;> simp [hr, h1, parallelRun_viol, hv]
    · have hv' : perfectSquareViolated p = false := by simpa using hv
      by_cases hr : r = 0 <;> simp [hr, h1, parallelRun_pass, hv', hv]
  exact ⟨key rank, fun r' => (key rank).trans (key r').symm⟩

/-- Witness for C7 at `p = 4`, rank 3, arguments `jacobi -n 2`. -/
theorem c7_witness :
    ((mainProc 3 4 ["jacobi", "-n", "2"] envGen solConv).exit = .runtimeError squareMsg ↔
      perfectSquareViolated 4 = true) ∧
    (∀ rank', ((mainProc 3 4 ["jacobi", "-n", "2"] envGen solConv).exit = .runtimeError squareMsg ↔
      (mainProc rank' 4 ["jacobi", "-n", "2"] envGen solConv).exit = .runtimeError squareMsg)) :=
  c7_square_check_depends_only_on_p 3 4 ["jacobi", "-n", "2"] envGen solConv stGen2
    rfl (by decide)

/-- C5: in file-input mode (first argument not `-n`, `argc = 4`), when
the number of elements read for `A` differs from `n*n` with `n` the
number of elements read for `b`, rank 0 raises the fatal
`The input dimensions are not matching` error with nothing else in its
trace — no solver, sequential or parallel, is invoked with the mismatched
buffers — and every other process blocks in the broadcast without calling
a solver either. -/
theorem c5_dimension_mismatch_fatal
    (rank p : Nat) (argv : List String) (env : Env) (sol : Solver)
    (h1 : argv.getD 1 "" ≠ "-n") (h2 : argv.length = 4)
    (h3 : env.fileA.length ≠ env.fileB.length * env.fileB.length) :
    mainProc 0 p argv env sol =
      { trace := [], exit := .runtimeError dimMsg, x := [] } ∧
    (rank ≠ 0 →
      mainProc rank p argv env sol = { trace := [], exit := .blocked, x := [] }) := by
  have hp : parseArgs argv env = .error (.runtimeError dimMsg) := by
    unfold parseArgs
    rw [if_neg (by omega), if_neg h1, if_neg (by omega), if_pos h3]
  constructor
  · unfold mainProc
    simp [hp]
  · intro hr
    unfold mainProc
    simp [hr, hp]

/-- Witness for C5: `b` has 1 element, `A` has 0, at `p = 4`. -/
theorem c5_witness :
    mainProc 0 4 ["jacobi", "A.bin", "b.bin", "x.bin"] envBad solConv =
      { trace := [], exit := .runtimeError dimMsg, x := [] } ∧
    ((1 : Nat) ≠ 0 →
      mainProc 1 4 ["jacobi", "A.bin", "b.bin", "x.bin"] envBad solConv =
        { trace := [], exit := .blocked, x := [] }) :=
  c5_dimension_mismatch_fatal 1 4 ["jacobi", "A.bin", "b.bin", "x.bin"] envBad solConv
    (by decide) (by decide) (by decide)

/-- C10: in random-generation mode (`argv[1] = "-n"`), when the parsed
size satisfies `atoi(argv[2]) ≤ 0` — which includes every non-numeric
argument, since those parse to `0` — rank 0 prints the usage message and
exits with failure status; its whole trace is the usage message: no input
is generated and no solver is called. -/
theorem c10_nonpositive_n_usage_exit
    (p : Nat) (argv : List String) (env : Env) (sol : Solver)
    (h1 : argv.getD 1 "" = "-n") (h2 : atoi (argv.getD 2 "") ≤ 0) :
    mainProc 0 p argv env sol =
      { trace := [Step.printUsage], exit := .usageExit, x := [] } := by
  have hp : parseArgs argv env = .error .usageExit := by
    unfold parseArgs
    by_cases h3 : argv.length < 3
    · rw [if_pos h3]
    · rw [if_neg h3, if_pos h1, if_pos (show ¬ atoi (argv.getD 2 "") > 0 by omega)]
  unfold mainProc
  simp [hp]

/-- Witness for C10 with the non-numeric size argument `abc` (which
`atoi` parses to `0`) at `p = 4`. -/
theorem c10_witness :
    atoi "abc" = 0 ∧
    mainProc 0 4 ["jacobi", "-n", "abc"] envGen solConv =
      { trace := [Step.printUsage], exit := .usageExit, x := [] } :=
  ⟨by decide,
    c10_nonpositive_n_usage_exit 4 ["jacobi", "-n", "abc"] envGen solConv rfl (by decide)⟩

/-- In the parallel branch the broadcast of `n` is the first
communication step: `bcastN n` is in the trace, it is the only broadcast
value, and every `cartCreate` occurrence is strictly preceded by it. -/
theorem parallelRun_bcast_before_cart
    (rank p n : Nat) (A b : List Q) (wout : Bool) (fname : String)
    (ev : List Step) (sol : Solver)
    (hev : ev = [] ∨ ev = [Step.genInput n]) :
    Step.bcastN n ∈ (parallelRun rank p n A b wout fname ev sol).trace ∧
    (∀ m, Step.bcastN m ∈ (parallelRun rank p n A b wout fname ev sol).trace → m = n) ∧
    (∀ i gc, (parallelRun rank p n A b wout fname ev sol).trace[i]? =
        some (Step.cartCreate gc) →
      ∃ j : Nat, j < i ∧ (parallelRun rank p n A b wout fname ev sol).trace[j]? =
        some (Step.bcastN n)) := by
  by_cases hv : perfectSquareViolated p = true
  · rw [parallelRun_viol rank p n A b wout fname ev sol hv]
    rcases hev with hev | hev <;> subst hev
    · refine ⟨by simp, by simp, ?_⟩
      intro i gc h
      rcases i with _ | i <;> simp at h
    · refine ⟨by simp, by simp, ?_⟩
      intro i gc h
      rcases i with _ | _ | i <;> simp at h
  · have hv' : perfectSquareViolated p = false := by simpa using hv
    rw [parallelRun_pass rank p n A b wout fname ev sol hv']
    rcases hev with hev | hev <;> subst hev <;>
      by_cases hr : rank = 0 <;> by_cases hw : wout = true <;>
        simp only [hr, hw, if_true, if_false, List.nil_append, List.cons_append,
          List.append_nil, if_pos, reduceIte]
    all_goals refine ⟨by simp, by simp, ?_⟩
    all_goals intro i gc h
    all_goals first
      | (rcases i with _ | _ | i
         · simp at h
         · simp at h
         · exact ⟨1, by omega, rfl⟩)
      | (rcases i with _ | i
         · simp at h
         · exact ⟨0, by omega, rfl⟩)

/-- C9: in every parallel run (`p > 1`, successful parse), before the
broadcast the program size `n` is defined only on the root
(`nBeforeBcast` is `some` of the parsed `n` on rank 0 and `none`
elsewhere); the broadcast step carries the root's `n` and no other value
on every process; and every Cartesian-grid construction in the trace is
strictly preceded by that broadcast. -/
theorem c9_n_broadcast_before_grid
    (rank p : Nat) (argv : List String) (env : Env) (sol : Solver) (st : Setup)
    (hp : parseArgs argv env = .ok st) (h1 : 1 < p) :
    (nBeforeBcast rank argv env = if rank = 0 then some st.n else none) ∧
    Step.bcastN st.n ∈ (mainProc rank p argv env sol).trace ∧
    (∀ m, Step.bcastN m ∈ (mainProc rank p argv env sol).trace → m = st.n) ∧
    (∀ i gc, (mainProc rank p argv env sol).trace[i]? = some (Step.cartCreate gc) →
      ∃ j : Nat, j < i ∧ (mainProc rank p argv env sol).trace[j]? = some (Step.bcastN st.n)) := by
  refine ⟨?_, ?_⟩
  · unfold nBeforeBcast
    rw [hp]
  · rw [mainProc_ok rank p argv env sol st hp]
    by_cases hr : rank = 0
    · rw [if_pos hr, if_pos h1]
      exact parallelRun_bcast_before_cart 0 p st.n st.A st.b st.writeOutput
        st.outfileName st.events sol (parse_events argv env st hp)
    · rw [if_neg hr, if_pos h1]
      exact parallelRun_bcast_before_cart rank p st.n [] [] false noOutfile [] sol (Or.inl rfl)

/-- Witness for C9 at rank 1, `p = 4`, arguments `jacobi -n 2`. -/
theorem c9_witness :
    (nBeforeBcast 1 ["jacobi", "-n", "2"] envGen = if 1 = 0 then some stGen2.n else none) ∧
    Step.bcastN stGen2.n ∈ (mainProc 1 4 ["jacobi", "-n", "2"] envGen solConv).trace ∧
    (∀ m, Step.bcastN m ∈ (mainProc 1 4 ["jacobi", "-n", "2"] envGen solConv).trace →
      m = stGen2.n) ∧
    (∀ i gc, (mainProc 1 4 ["jacobi", "-n", "2"] envGen solConv).trace[i]? =
        some (Step.cartCreate gc) →
      ∃ j : Nat, j < i ∧ (mainProc 1 4 ["jacobi", "-n", "2"] envGen solConv).trace[j]? =
        some (Step.bcastN stGen2.n)) :=
  c9_n_broadcast_before_grid 1 4 ["jacobi", "-n", "2"] envGen solConv stGen2 rfl (by decide)

/-- C8: in a parallel run past the perfect-square check, with a solver
respecting the spec's interface (a non-root `mpi_jacobi` call leaves the
caller's `x` buffer unchanged, since only the root receives the result),
the driver allocates `x` with length `n` on rank 0 alone — visible both
as the unique `allocX` step and as the `x` argument of the solver call —
and only rank 0 prints the timing and optionally writes the output file;
on every non-root process the driver's `x` stays empty through the whole
run and no output step occurs. -/
theorem c8_x_allocated_and_used_on_root_only
    (rank p : Nat) (argv : List String) (env : Env) (sol : Solver) (st : Setup)
    (hp : parseArgs argv env = .ok st) (h1 : 1 < p)
    (hs : p = isqrt p * isqrt p)
    (hframe : ∀ n A b x r q, r ≠ 0 → (sol.mpi n A b x r q).1 = x) :
    (∀ m, Step.allocX m ∈ (mainProc rank p argv env sol).trace ↔ rank = 0 ∧ m = st.n) ∧
    (rank = 0 →
      Step.callMpiJacobi st.n st.A st.b (List.replicate st.n 0)
          ⟨2, [isqrt p, isqrt p], [false, false], p⟩ ∈ (mainProc rank p argv env sol).trace ∧
      Step.printTime ∈ (mainProc rank p argv env sol).trace ∧
      (st.writeOutput = true →
        Step.writeFile st.outfileName (mainProc rank p argv env sol).x ∈
          (mainProc rank p argv env sol).trace)) ∧
    (rank ≠ 0 →
      (mainProc rank p argv env sol).x = [] ∧
      Step.callMpiJacobi st.n [] [] [] ⟨2, [isqrt p, isqrt p], [false, false], p⟩ ∈
        (mainProc rank p argv env sol).trace ∧
      Step.printTime ∉ (mainProc rank p argv env sol).trace ∧
      (∀ f y, Step.writeFile f y ∉ (mainProc rank p argv env sol).trace)) := by
  have hpass : perfectSquareViolated p = false := by
    simpa [perfectSquareViolated] using hs
  rw [mainProc_ok rank p argv env sol st hp]
  by_cases hr : rank = 0
  · rcases parse_events argv env st hp with hev | hev <;>
      by_cases hw : st.writeOutput = true <;>
        simp [hr, h1, parallelRun_pass, hpass, hev, hw]
  · have hx : (sol.mpi st.n [] [] [] rank p).1 = [] := hframe _ _ _ _ _ _ hr
    simp [hr, h1, parallelRun_pass, hpass, hx]

/-- Witness for C8 at rank 1, `p = 4`, arguments `jacobi -n 2`, with a
solver that never touches the buffer. -/
theorem c8_witness :
    (∀ m, Step.allocX m ∈ (mainProc 1 4 ["jacobi", "-n", "2"] envGen solConv).trace ↔
      (1 : Nat) = 0 ∧ m = stGen2.n) ∧
    ((1 : Nat) = 0 →
      Step.callMpiJacobi stGen2.n stGen2.A stGen2.b (List.replicate stGen2.n 0)
          ⟨2, [isqrt 4, isqrt 4], [false, false], 4⟩ ∈
        (mainProc 1 4 ["jacobi", "-n", "2"] envGen solConv).trace ∧
      Step.printTime ∈ (mainProc 1 4 ["jacobi", "-n", "2"] envGen solConv).trace ∧
      (stGen2.writeOutput = true →
        Step.writeFile stGen2.outfileName (mainProc 1 4 ["jacobi", "-n", "2"] envGen solConv).x ∈
          (mainProc 1 4 ["jacobi", "-n", "2"] envGen solConv).trace)) ∧
    ((1 : Nat) ≠ 0 →
      (mainProc 1 4 ["jacobi", "-n", "2"] envGen solConv).x = [] ∧
      Step.callMpiJacobi stGen2.n [] [] [] ⟨2, [isqrt 4, isqrt 4], [false, false], 4⟩ ∈
        (mainProc 1 4 ["jacobi", "-n", "2"] envGen solConv).trace ∧
      Step.printTime ∉ (mainProc 1 4 ["jacobi", "-n", "2"] envGen solConv).trace ∧
      (∀ f y, Step.writeFile f y ∉ (mainProc 1 4 ["jacobi", "-n", "2"] envGen solConv).trace)) :=
  c8_x_allocated_and_used_on_root_only 1 4 ["jacobi", "-n", "2"] envGen solConv stGen2
    rfl (by decide) (by decide) (fun _ _ _ _ _ _ _ => rfl)

/-- C2 counterexample: the claim says the driver can distinguish a
`MAX_ITERS_REACHED` solve from a `CONVERGED` one.  Here are two runs of
the driver, identical except that the solver reports `CONVERGED` in one
and `MAX_ITERS_REACHED` in the other; the solver is genuinely invoked
(the call step is in the trace), yet the two driver runs — trace, exit
mode and final `x` — are equal: the call site `mpi_jacobi(...)` discards
the status, so the caller cannot distinguish the two outcomes. -/
theorem c2_counterexample :
    (solConv.mpi 2 (List.replicate 4 1) (List.replicate 2 1) (List.replicate 2 0) 0 4).2 ≠
      (solMax.mpi 2 (List.replicate 4 1) (List.replicate 2 1) (List.replicate 2 0) 0 4).2 ∧
    Step.callMpiJacobi 2 (List.replicate 4 1) (List.replicate 2 1) (List.replicate 2 0)
        ⟨2, [2, 2], [false, false], 4⟩ ∈
      (mainProc 0 4 ["jacobi", "-n", "2"] envGen solConv).trace ∧
    mainProc 0 4 ["jacobi", "-n", "2"] envGen solConv =
      mainProc 0 4 ["jacobi", "-n", "2"] envGen solMax :=
  ⟨by decide, by decide, by decide⟩

/-- C2 (amended): the spec-modelled solver interface does return the
current `x` plus a status flag, but the driver's call site discards the
status, so the driver's entire observable behaviour — trace, exit mode
and final `x` — is independent of it: two solvers whose `x` results
agree produce identical driver runs whatever their statuses. -/
theorem c2_driver_independent_of_status
    (rank p : Nat) (argv : List String) (env : Env) (s t : Solver)
    (hmpi : ∀ n A b x r q, (s.mpi n A b x r q).1 = (t.mpi n A b x r q).1)
    (hseq : ∀ n A b x, s.seq n A b x = t.seq n A b x) :
    mainProc rank p argv env s = mainProc rank p argv env t := by
  unfold mainProc
  cases hps : parseArgs argv env with
  | error e => cases e <;> by_cases hr : rank = 0 <;> simp [hr]
  | ok st =>
      by_cases hr : rank = 0 <;> by_cases h1 : p > 1 <;>
        simp [hr, h1, parallelRun, seqRun, hmpi, hseq]

/-- Witness for C2 (amended) at rank 2, `p = 4`. -/
theorem c2_witness :
    mainProc 2 4 ["jacobi", "-n", "2"] envGen solConv =
      mainProc 2 4 ["jacobi", "-n", "2"] envGen solMax :=
  c2_driver_independent_of_status 2 4 ["jacobi", "-n", "2"] envGen solConv solMax
    (fun _ _ _ _ _ _ => rfl) (fun _ _ _ _ => rfl)

/-- C3 counterexample: the claim says forming the buffer arguments never
accesses an element of an empty container.  On the non-root rank 1 of a
`p = 4` run, `A`, `b`, `x` are all empty at the `mpi_jacobi` call (second
conjunct), yet the call site forms `&A[0], &b[0], &x[0]`, accessing
element 0 of each empty container (`formArgs none none none`, first
conjunct).  On rank 0 the same accesses hit existing elements (third
conjunct). -/
theorem c3_counterexample :
    Step.formArgs none none none ∈
      (mainProc 1 4 ["jacobi", "-n", "2"] envGen solConv).trace ∧
    Step.callMpiJacobi 2 [] [] [] ⟨2, [2, 2], [false, false], 4⟩ ∈
      (mainProc 1 4 ["jacobi", "-n", "2"] envGen solConv).trace ∧
    Step.formArgs (some 1) (some 1) (some 0) ∈
      (mainProc 0 4 ["jacobi", "-n", "2"] envGen solConv).trace :=
  ⟨by decide, by decide, by decide⟩

/-- C3 (amended): on every non-root process of a parallel run past the
perfect-square check, the driver supplies empty `A`, `b`, `x` to
`mpi_jacobi` — but forming the buffer arguments `&A[0], &b[0], &x[0]`
unconditionally invokes `operator[](0)`, so on such a process it does
access element 0 of the three empty containers (undefined behaviour),
recorded as `formArgs none none none`. -/
theorem c3_nonroot_supplies_empty_but_accesses_elem0
    (rank p : Nat) (argv : List String) (env : Env) (sol : Solver) (st : Setup)
    (hp : parseArgs argv env = .ok st) (h1 : 1 < p)
    (hs : p = isqrt p * isqrt p) (hr : rank ≠ 0) :
    Step.callMpiJacobi st.n [] [] [] ⟨2, [isqrt p, isqrt p], [false, false], p⟩ ∈
      (mainProc rank p argv env sol).trace ∧
    Step.formArgs none none none ∈ (mainProc rank p argv env sol).trace := by
  have hpass : perfectSquareViolated p = false := by
    simpa [perfectSquareViolated] using hs
  rw [mainProc_ok rank p argv env sol st hp, if_neg hr, if_pos h1,
    parallelRun_pass rank p st.n [] [] false noOutfile [] sol hpass]
  simp [hr]

/-- Witness for C3 (amended) at rank 3, `p = 4`, arguments `jacobi -n 2`. -/
theorem c3_witness :
    Step.callMpiJacobi stGen2.n [] [] [] ⟨2, [isqrt 4, isqrt 4], [false, false], 4⟩ ∈
      (mainProc 3 4 ["jacobi", "-n", "2"] envGen solConv).trace ∧
    Step.formArgs none none none ∈ (mainProc 3 4 ["jacobi", "-n", "2"] envGen solConv).trace :=
  c3_nonroot_supplies_empty_but_accesses_elem0 3 4 ["jacobi", "-n", "2"] envGen solConv stGen2
    rfl (by decide) (by decide) (by decide)

end JacobiDriver
